import Mathlib

/-!
Verification of the ticket-summarizer pipeline (src/).

Shallow embedding of the core pipeline code:
  * src/utils.py        — validators, normalizers, retry logic
  * src/fetcher.py      — fetch_ticket, fetch_ticket_complete, _parse_custom_fields
  * src/synthesizer.py  — parse_response, synthesize_multiple
  * src/categorizer.py  — parse_categorization_response, categorize_multiple
  * src/diagnostics_analyzer.py — _derive_overall_assessment, _normalize_gap_areas,
                                  analyze_ticket post-processing, analyze_multiple

Text is modelled as `List Char`.  Python string methods (strip, lower, split)
and the labelled-section regular expressions used by the parsers are embedded
directly, restricted to ASCII case mapping (all closed vocabularies and all
labels in the source are ASCII).  Asynchronous remote calls are modelled by
outcome oracles (`Except`-valued functions); the embedding additionally
returns invocation counts and sleep lists where a claim speaks about them.
-/

namespace TicketSummarizer

/-- Text is a list of characters (one Python `str`). -/
abbrev Text := List Char

/-- Python `\s` / `str.strip()` whitespace, ASCII range. -/
def isPySpace (c : Char) : Bool :=
  c = ' ' || c = '\t' || c = '\n' || c = '\r' || c = '\x0b' || c = '\x0c'

/-- Python `str.strip()`: drop whitespace from both ends. -/
def pyStrip (s : Text) : Text :=
  ((s.dropWhile isPySpace).reverse.dropWhile isPySpace).reverse

/-- Python `str.lower()` (ASCII case mapping). -/
def pyLower (s : Text) : Text := s.map Char.toLower

/-- Python `str.upper()` (ASCII case mapping). -/
def pyUpper (s : Text) : Text := s.map Char.toUpper

/-- Python `str.split(',')`: split on every comma; `"".split(',') == [""]`. -/
def splitComma : Text → List Text
  | [] => [[]]
  | c :: rest =>
    if c = ',' then [] :: splitComma rest
    else
      match splitComma rest with
      | g :: gs => (c :: g) :: gs
      | [] => [[c]]

/-! ## Configuration constants (src/config.py) -/

def DIAGNOSTICS_CUSTOM_FIELD_ID : Nat := 41001255923353
def CROSS_TEAM_FIELD_ID : Nat := 48570811421977
def JIRA_TICKET_FIELD_ID : Nat := 360024807472

def MAX_RETRIES : Nat := 1
/-- `RETRY_DELAY_SECONDS = 2`.  Delays are modelled as rationals; for the
values that appear here (`delay * 2 ** attempt` with small integers) Python
float arithmetic is exact, so the rational model is faithful. -/
def RETRY_DELAY_SECONDS : ℚ := 2

def VALID_PODS : List Text :=
  ["WFE".toList, "Guidance".toList, "CMM".toList, "Hub".toList,
   "Analytics".toList, "Insights".toList, "Capture".toList, "Mirror".toList,
   "Desktop".toList, "Mobile".toList, "Labs".toList,
   "Platform Services".toList, "UI Platform".toList]

def CONFIDENCE_LEVELS : List Text := ["confident".toList, "not confident".toList]

/-! ## Validators (src/utils.py) -/

/-- `utils.validate_pod`: empty is invalid; otherwise the stripped name must
match `config.VALID_PODS` exactly or case-insensitively. -/
def validate_pod (pod_name : Text) : Bool :=
  if pod_name = [] then false
  else
    let n := pyStrip pod_name
    if VALID_PODS.contains n then true
    else (VALID_PODS.map pyLower).contains (pyLower n)

/-- `utils.validate_confidence`: empty is invalid; otherwise the stripped,
lowered value must be one of `config.CONFIDENCE_LEVELS` (lowered). -/
def validate_confidence (confidence : Text) : Bool :=
  if confidence = [] then false
  else (CONFIDENCE_LEVELS.map pyLower).contains (pyLower (pyStrip confidence))

/-- `utils.normalize_diagnostics_field`. -/
def normalize_diagnostics_field (raw_value : Option Text) : Text :=
  match raw_value with
  | none => "Not Applicable".toList
  | some v =>
    if v = [] then "Not Applicable".toList
    else
      let normalized := pyLower (pyStrip v)
      if normalized = [] then "Not Applicable".toList
      else if normalized = "diagnostic_yes".toList then "Yes".toList
      else if normalized = "diagnostic_no".toList then "No".toList
      else "Not Applicable".toList

/-! ## Labelled-section extraction

Both parsers use `re.search` with patterns of the shape
`\*\*Label:\*\*\s*\n(.*?)(?=\n\*\*|\Z)` (DOTALL).  Semantics, embedded below:
scan for the leftmost occurrence of the literal label at which the rest of
the pattern matches; `\s*\n` backtracks to the *last* newline inside the
maximal whitespace run following the label; the non-greedy capture then ends
at the first subsequent `"\n**"` (or, for the `(?=\Z)`-only patterns, runs to
the end of the text). -/

/-- Consume the maximal whitespace run; return the suffix just after the last
newline inside it (`none` when the run contains no newline).  This is what
`\s*\n` (greedy `\s*`, then backtracking to find `\n`) leaves to match on. -/
def afterLastNlInWs (best : Option Text) : Text → Option Text
  | [] => best
  | c :: rest =>
    if c = '\n' then afterLastNlInWs (some rest) rest
    else if isPySpace c then afterLastNlInWs best rest
    else best

/-- Non-greedy capture `(.*?)(?=\n\*\*|\Z)`: everything up to the first
occurrence of `"\n**"`, or to the end of the text. -/
def captureUpToSection : Text → Text
  | [] => []
  | c :: rest =>
    if c = '\n' ∧ ['*', '*'].isPrefixOf rest then []
    else c :: captureUpToSection rest

/-- `re.search` for `label\s*\n(.*?)(?=\n\*\*|\Z)` (DOTALL): try each
occurrence of the literal label from the left; at the first one followed by a
whitespace run containing a newline, return the capture. -/
def extract_section (label : Text) : Text → Option Text
  | [] => none
  | c :: rest =>
    if label.isPrefixOf (c :: rest) then
      match afterLastNlInWs none ((c :: rest).drop label.length) with
      | some tail => some (captureUpToSection tail)
      | none => extract_section label rest
    else extract_section label rest

/-- `re.search` for `label\s*\n(.*?)(?=\Z)` (DOTALL): as `extract_section`,
but the capture runs to the end of the text (used for the final section of
each prompt format: Resolution, Alternative Reasoning). -/
def extract_section_to_end (label : Text) : Text → Option Text
  | [] => none
  | c :: rest =>
    if label.isPrefixOf (c :: rest) then
      match afterLastNlInWs none ((c :: rest).drop label.length) with
      | some tail => some tail
      | none => extract_section_to_end label rest
    else extract_section_to_end label rest

/-! ## Synthesis parser (src/synthesizer.py, GeminiSynthesizer.parse_response) -/

structure Synthesis where
  issue_reported : Text := []
  root_cause : Text := []
  summary : Text := []
  resolution : Text := []
deriving Repr, DecidableEq

/-- `GeminiSynthesizer.parse_response`: extract the four labelled sections,
each defaulting to the empty string when absent.  (The source additionally
logs a warning listing the fields that stayed empty; logging does not affect
the returned structure.) -/
def parse_response (response_text : Text) : Synthesis :=
  { issue_reported :=
      ((extract_section "**Issue Reported:**".toList response_text).map pyStrip).getD []
    root_cause :=
      ((extract_section "**Root Cause:**".toList response_text).map pyStrip).getD []
    summary :=
      ((extract_section "**Summary:**".toList response_text).map pyStrip).getD []
    resolution :=
      ((extract_section_to_end "**Resolution:**".toList response_text).map pyStrip).getD [] }

/-! ## Categorization parser (src/categorizer.py) -/

structure Categorization where
  primary_pod : Text := []
  reasoning : Text := []
  confidence : Text := "not confident".toList
  confidence_reason : Text := []
  alternative_pods : List Text := []
  alternative_reasoning : Option Text := none
  keywords_matched : List Text := []
  decision_factors : List Text := []
deriving Repr, DecidableEq

/-- One `self.logger.warning` event raised by `parse_categorization_response`
(the invalid value is the interpolated argument of the message). -/
inductive CatWarning where
  | invalidPod (v : Text)
  | invalidConfidence (v : Text)
  | missingPrimaryPod
  | missingReasoning
  | missingConfidenceReason
deriving Repr, DecidableEq

/-- `TicketCategorizer.parse_categorization_response`: extract each labelled
section; validate Primary POD and Confidence against their vocabularies,
falling back to `""` and `"not confident"`; map a literal (case-insensitive)
`none` Alternative-PODs section to `[]` and otherwise comma-split, trim and
keep only valid PODs; drop an `N/A` Alternative Reasoning.  Returns the
structure together with the warnings logged, in source order. -/
def parse_categorization_response (response_text : Text) :
    Categorization × List CatWarning :=
  let podPart :=
    match extract_section "**Primary POD:**".toList response_text with
    | none => (([] : Text), ([] : List CatWarning))
    | some g =>
      let primary_pod := pyStrip g
      if validate_pod primary_pod then (primary_pod, [])
      else ([], [CatWarning.invalidPod primary_pod])
  let reasoning :=
    ((extract_section "**Reasoning:**".toList response_text).map pyStrip).getD []
  let confPart :=
    match extract_section "**Confidence:**".toList response_text with
    | none => ("not confident".toList, ([] : List CatWarning))
    | some g =>
      let confidence := pyStrip g
      if validate_confidence confidence then (confidence, [])
      else ("not confident".toList, [CatWarning.invalidConfidence confidence])
  let confidence_reason :=
    ((extract_section "**Confidence Reason:**".toList response_text).map pyStrip).getD []
  let alternative_pods :=
    match extract_section "**Alternative PODs:**".toList response_text with
    | none => ([] : List Text)
    | some g =>
      let alt_pods_text := pyStrip g
      if pyLower alt_pods_text = "none".toList then []
      else ((splitComma alt_pods_text).map pyStrip).filter validate_pod
  let alternative_reasoning :=
    match extract_section_to_end "**Alternative Reasoning:**".toList response_text with
    | none => (none : Option Text)
    | some g =>
      let alt_reasoning := pyStrip g
      if pyUpper alt_reasoning = "N/A".toList then none else some alt_reasoning
  let missingWarnings :=
    (if podPart.1 = [] then [CatWarning.missingPrimaryPod] else [])
      ++ (if reasoning = [] then [CatWarning.missingReasoning] else [])
      ++ (if confidence_reason = [] then [CatWarning.missingConfidenceReason] else [])
  ({ primary_pod := podPart.1
     reasoning := reasoning
     confidence := confPart.1
     confidence_reason := confidence_reason
     alternative_pods := alternative_pods
     alternative_reasoning := alternative_reasoning
     keywords_matched := []
     decision_factors := [] },
   podPart.2 ++ confPart.2 ++ missingWarnings)

/-! ## Diagnostics analyzer (src/diagnostics_analyzer.py)

The parsed JSON analysis is modelled as a record whose `Option` fields stand
for present/absent JSON keys. -/

structure WasUsed where
  llm_assessment : Option Text := none
  confidence : Option Text := none
  reasoning : Option Text := none
  custom_field_value : Option Text := none
deriving Repr, DecidableEq

structure CouldHelp where
  triage_assessment : Option Text := none
  triage_reasoning : Option Text := none
  fix_assessment : Option Text := none
  fix_reasoning : Option Text := none
  triage_gap_area : Option Text := none
  triage_gap_description : Option Text := none
  fix_gap_area : Option Text := none
  fix_gap_description : Option Text := none
  confidence : Option Text := none
  diagnostics_capability_matched : List Text := []
  limitation_notes : Option Text := none
  overall_assessment : Option Text := none
  overall_reasoning : Option Text := none
deriving Repr, DecidableEq

structure AnalysisMeta where
  ticket_type : Option Text := none
  analysis_timestamp : Option Text := none
deriving Repr, DecidableEq

structure DiagnosticsAnalysis where
  was_diagnostics_used : WasUsed := {}
  could_diagnostics_help : CouldHelp := {}
  metadata : AnalysisMeta := {}
deriving Repr, DecidableEq

/-- `DiagnosticsAnalyzer._derive_overall_assessment`: strip and lower both
inputs, then apply the Phase 6 decision table. -/
def _derive_overall_assessment (triage fix : Text) : Text :=
  let t := pyLower (pyStrip triage)
  let f := pyLower (pyStrip fix)
  if t = "yes".toList ∧ f = "yes".toList then "yes".toList
  else if t = "yes".toList ∧ (f = "no".toList ∨ f = "maybe".toList) then "maybe".toList
  else if t = "maybe".toList then "maybe".toList
  else "no".toList

/-- The post-parse enrichment block of `DiagnosticsAnalyzer.analyze_ticket`
(lines 120–142): when parsing produced a result, record the custom-field
value and timestamp, then overwrite `overall_assessment` with the value
derived from `triage_assessment` (default `"maybe"`) and `fix_assessment`
(default `"no"`), and set the templated `overall_reasoning`.  Whatever
`overall_assessment` the model itself produced is discarded. -/
def analyze_ticket_enrich (analysis_result : Option DiagnosticsAnalysis)
    (custom_field_value timestamp : Text) : Option DiagnosticsAnalysis :=
  match analysis_result with
  | none => none
  | some a =>
    let triage := a.could_diagnostics_help.triage_assessment.getD "maybe".toList
    let fix := a.could_diagnostics_help.fix_assessment.getD "no".toList
    let overall := _derive_overall_assessment triage fix
    let overall_reasoning :=
      if overall = "yes".toList then
        "Diagnostics could both identify and help fix the issue.".toList
      else if overall = "maybe".toList then
        if triage = "yes".toList then
          "Diagnostics could help identify the issue but not resolve it.".toList
        else "Partial help possible - details uncertain.".toList
      else "Diagnostics could not help with this issue.".toList
    some { a with
      was_diagnostics_used :=
        { a.was_diagnostics_used with custom_field_value := some custom_field_value }
      metadata := { a.metadata with analysis_timestamp := some timestamp }
      could_diagnostics_help :=
        { a.could_diagnostics_help with
            overall_assessment := some overall
            overall_reasoning := some overall_reasoning } }

/-- The `AttributeError` raised when `_normalize_gap_areas` touches a
constant that `src/config.py` never defines. -/
inductive GapConfigError where
  | triageGapAreasUndefined
  | fixGapAreasUndefined
deriving Repr, DecidableEq

/-- `DiagnosticsAnalyzer._normalize_gap_areas`.  The source first tests
`triage_gap is not None and triage_gap not in config.TRIAGE_GAP_AREAS`, but
`src/config.py` defines no `TRIAGE_GAP_AREAS` (nor `FIX_GAP_AREAS`), so as
soon as a gap-area key is present the attribute access raises
`AttributeError` — the remap branch that follows it is unreachable.  The
exception escapes to `_parse_diagnostics_response`, whose generic handler
returns `None` (analysis failed). -/
def _normalize_gap_areas (analysis_data : DiagnosticsAnalysis) :
    Except GapConfigError DiagnosticsAnalysis :=
  match analysis_data.could_diagnostics_help.triage_gap_area with
  | some _ => .error .triageGapAreasUndefined
  | none =>
    match analysis_data.could_diagnostics_help.fix_gap_area with
    | some _ => .error .fixGapAreasUndefined
    | none => .ok analysis_data

/-! ## Retry logic (src/utils.py, retry_on_failure)

The decorated operation is an oracle `op : Nat → Except E A` giving the
outcome of each attempt (attempts numbered from 0, as in the source's
`for attempt in range(max_retries + 1)` loop).  Both the async and the sync
wrapper run the same loop; it is embedded once.  The embedding returns the
final outcome, the number of times the operation was invoked, and the list
of back-off sleeps performed (in order). -/

/-- The retry loop of `utils.retry_on_failure`, at attempt number `attempt`
with `remaining` further attempts allowed after this one.  On failure with
`remaining > 0` the loop sleeps `delay * 2 ** attempt` and retries; on the
final failure the last exception is re-raised. -/
def retry_go (op : Nat → Except E A) (delay : ℚ) (attempt : Nat) :
    Nat → Except E A × Nat × List ℚ
  | 0 =>
    (match op attempt with
     | .ok a => .ok a
     | .error e => .error e, 1, [])
  | remaining + 1 =>
    match op attempt with
    | .ok a => (.ok a, 1, [])
    | .error _ =>
      let rest := retry_go op delay (attempt + 1) remaining
      (rest.1, rest.2.1 + 1, delay * 2 ^ attempt :: rest.2.2)

/-- `utils.retry_on_failure(max_retries, delay)` applied to an operation:
run it up to `max_retries + 1` times with exponential back-off. -/
def retry_on_failure (max_retries : Nat) (delay : ℚ) (op : Nat → Except E A) :
    Except E A × Nat × List ℚ :=
  retry_go op delay 0 max_retries

/-! ## Fetcher (src/fetcher.py) -/

/-- A raw Zendesk custom field entry (`field.get('id')`,
`field.get('value', '')`). -/
structure RawCustomField where
  id : Option Nat := none
  value : Option Text := none
deriving Repr, DecidableEq

/-- The raw ticket JSON returned by the Zendesk ticket endpoint
(`data.get('ticket', {})`). -/
structure RawTicket where
  subject : Option Text := none
  description : Option Text := none
  status : Option Text := none
  created_at : Option Text := none
  updated_at : Option Text := none
  custom_fields : List RawCustomField := []
deriving Repr, DecidableEq

/-- A raw Zendesk comment (fields read by `fetch_ticket_complete`;
`id`/`author_id` are kept in their already-stringified form, and
`via.source.from.name` is flattened into `via_from_name`). -/
structure RawComment where
  id : Option Text := none
  author_id : Option Text := none
  created_at : Option Text := none
  body : Option Text := none
  public : Option Bool := none
  via_from_name : Option Text := none
deriving Repr, DecidableEq

/-- The exceptions that can cross `fetch_ticket_complete`'s handlers:
the two typed fetch errors from `utils`, and the `AttributeError` raised by
`_parse_custom_fields` calling the undefined
`utils.determine_escalation_status`. -/
inductive PipelineExc where
  | ticketNotFound (ticket_id : Text)
  | zendeskAPIError (ticket_id : Text) (status : Nat)
  | attributeError
deriving Repr, DecidableEq

/-- Python `type(e).__name__`, used for the `error_type` field. -/
def PipelineExc.typeName : PipelineExc → Text
  | .ticketNotFound _ => "TicketNotFoundError".toList
  | .zendeskAPIError _ _ => "ZendeskAPIError".toList
  | .attributeError => "AttributeError".toList

/-- The body of `ZendeskFetcher.fetch_ticket` for one attempt: issue exactly
one HTTP GET (the oracle `response` gives each attempt's status and payload);
404 raises `TicketNotFoundError`, any other non-200 raises
`ZendeskAPIError`, 200 returns the ticket payload. -/
def fetch_ticket_body (ticket_id : Text) (response : Nat → Nat × RawTicket)
    (attempt : Nat) : Except PipelineExc RawTicket :=
  let r := response attempt
  if r.1 = 404 then .error (.ticketNotFound ticket_id)
  else if r.1 ≠ 200 then .error (.zendeskAPIError ticket_id r.1)
  else .ok r.2

/-- `ZendeskFetcher.fetch_ticket`: the body above wrapped in
`@utils.retry_on_failure()` with the config defaults.  The `Nat` component
counts HTTP requests issued (one per attempt); the list component is the
back-off sleeps incurred. -/
def fetch_ticket (ticket_id : Text) (response : Nat → Nat × RawTicket) :
    Except PipelineExc RawTicket × Nat × List ℚ :=
  retry_on_failure MAX_RETRIES RETRY_DELAY_SECONDS (fetch_ticket_body ticket_id response)

/-- The custom-fields dictionary built by `_parse_custom_fields`. -/
structure CustomFieldsDict where
  was_diagnostics_used : Option Text := none
deriving Repr, DecidableEq

/-- `ZendeskFetcher._parse_custom_fields`.  The field loop extracts the
diagnostics custom field (the Cross Team and JIRA fields only feed local
variables), and the diagnostics entry is defaulted when absent; but the
method then unconditionally calls `utils.determine_escalation_status`, which
`src/utils.py` does not define, so every invocation raises `AttributeError`
and the dictionary under construction is discarded. -/
def _parse_custom_fields (ticket_data : RawTicket) : Except PipelineExc CustomFieldsDict :=
  let step := fun (acc : CustomFieldsDict) (field : RawCustomField) =>
    if field.id = some DIAGNOSTICS_CUSTOM_FIELD_ID then
      { acc with was_diagnostics_used := some (normalize_diagnostics_field field.value) }
    else acc
  let afterLoop := ticket_data.custom_fields.foldl step {}
  let _custom_fields_data :=
    if afterLoop.was_diagnostics_used.isNone then
      { afterLoop with was_diagnostics_used := some "unknown".toList }
    else afterLoop
  .error .attributeError

/-- A comment as formatted by `fetch_ticket_complete`. -/
structure ProcessedComment where
  id : Text := []
  author_id : Text := []
  author_name : Text := []
  created_at : Text := []
  body : Text := []
  public : Bool := true
deriving Repr, DecidableEq

/-- `ZendeskFetcher._get_author_name`: the `via.source.from.name` value when
present and non-empty, otherwise `"User <author_id>"`. -/
def _get_author_name (comment : RawComment) : Text :=
  match comment.via_from_name with
  | some name => if name ≠ [] then name else
      "User ".toList ++ comment.author_id.getD "Unknown".toList
  | none => "User ".toList ++ comment.author_id.getD "Unknown".toList

/-- The record returned by `fetch_ticket_complete` — the success shape and
the failure shape share one dictionary type with optional keys. -/
structure FetchedRecord where
  ticket_id : Text
  serial_no : Option Nat := none
  subject : Option Text := none
  description : Option Text := none
  url : Option Text := none
  status : Option Text := none
  created_at : Option Text := none
  updated_at : Option Text := none
  comments_count : Option Nat := none
  custom_fields : Option CustomFieldsDict := none
  comments : Option (List ProcessedComment) := none
  processing_status : Text
  error : Option PipelineExc := none
  error_type : Option Text := none
deriving Repr, DecidableEq

/-- `ZendeskFetcher.fetch_ticket_complete`, as a function of the two
(post-retry) fetch outcomes.  `convert` stands for `utils.convert_to_ist`
(an out-of-scope timezone collaborator).  The success dictionary is built
only after `_parse_custom_fields` returns — which it never does: it raises
`AttributeError`, so every run lands in the generic `except Exception`
handler (`TicketNotFoundError` has its own identical-shaped handler). -/
def fetch_ticket_complete (convert : Text → Text) (ticket_id : Text)
    (serial_no : Option Nat)
    (ticket_res : Except PipelineExc RawTicket)
    (comments_res : Except PipelineExc (List RawComment)) : FetchedRecord :=
  let body : Except PipelineExc FetchedRecord := do
    let ticket_data ← ticket_res
    let comments_data ← comments_res
    let custom_fields_data ← _parse_custom_fields ticket_data
    pure
      { ticket_id := ticket_id
        serial_no := serial_no
        subject := some (ticket_data.subject.getD [])
        description := some (ticket_data.description.getD [])
        url := some ("https://subdomain.zendesk.com/agent/tickets/".toList ++ ticket_id)
        status := some (ticket_data.status.getD "unknown".toList)
        created_at := some (convert (ticket_data.created_at.getD []))
        updated_at := some (convert (ticket_data.updated_at.getD []))
        comments_count := some comments_data.length
        custom_fields := some custom_fields_data
        comments := some (comments_data.map fun c =>
          { id := c.id.getD []
            author_id := c.author_id.getD []
            author_name := _get_author_name c
            created_at := convert (c.created_at.getD [])
            body := c.body.getD []
            public := c.public.getD true })
        processing_status := "success".toList }
  match body with
  | .ok record => record
  | .error e =>
    { ticket_id := ticket_id
      serial_no := serial_no
      processing_status := "failed".toList
      error := some e
      error_type := some e.typeName }

/-! ## Pipeline stage runners

A pipeline ticket is the dict-shaped record flowing through
`synthesize_multiple` → `categorize_multiple` / `analyze_multiple`; each
stage copies the record and adds its own keys.  The per-item remote
operations (`synthesize_ticket`, `categorize_ticket`, `analyze_ticket`) are
modelled by outcome oracles. -/

structure PipelineTicket where
  ticket_id : Option Text := none
  serial_no : Option Nat := none
  subject : Option Text := none
  processing_status : Option Text := none
  error : Option Text := none
  error_type : Option Text := none
  synthesis : Option Synthesis := none
  synthesis_error : Option Text := none
  categorization : Option Categorization := none
  categorization_status : Option Text := none
  categorization_error : Option Text := none
  diagnostics_analysis : Option DiagnosticsAnalysis := none
  diagnostics_analysis_status : Option Text := none
  diagnostics_analysis_error : Option Text := none
deriving Repr, DecidableEq

/-- Eligibility filter of `GeminiSynthesizer.synthesize_multiple`:
`t.get('processing_status') == 'success'`. -/
def isFetchSuccess (t : PipelineTicket) : Bool :=
  t.processing_status = some "success".toList

/-- The result `synthesize_multiple` records for one eligible ticket: the
task's own result on success, and on exception a copy of the input marked
`processing_status = 'synthesis_failed'` with the stringified error. -/
def synthesize_step (synthesize : PipelineTicket → Except Text PipelineTicket)
    (t : PipelineTicket) : PipelineTicket :=
  match synthesize t with
  | .ok r => r
  | .error e =>
    { t with processing_status := some "synthesis_failed".toList
             synthesis_error := some e }

/-- `GeminiSynthesizer.synthesize_multiple`: run the per-ticket operation on
every successfully fetched ticket (gather keeps task order), then append the
skipped (failed-fetch) tickets untouched. -/
def synthesize_multiple (synthesize : PipelineTicket → Except Text PipelineTicket)
    (tickets : List PipelineTicket) : List PipelineTicket :=
  let tickets_to_synthesize := tickets.filter isFetchSuccess
  let results := tickets_to_synthesize.map (synthesize_step synthesize)
  let failed_fetches := tickets.filter fun t => ! isFetchSuccess t
  results ++ failed_fetches

/-- Eligibility filter of `TicketCategorizer.categorize_multiple`:
`t.get('processing_status') == 'success' and 'synthesis' in t`. -/
def isCategorizeEligible (t : PipelineTicket) : Bool :=
  t.processing_status = some "success".toList && t.synthesis.isSome

/-- The result `categorize_multiple` records for one eligible ticket: the
task's own result on success, and on exception a copy of the input with
`categorization_status = 'failed'` and the stringified error. -/
def categorize_step (categorize : PipelineTicket → Except Text PipelineTicket)
    (t : PipelineTicket) : PipelineTicket :=
  match categorize t with
  | .ok r => r
  | .error e =>
    { t with categorization_status := some "failed".toList
             categorization_error := some e }

/-- `TicketCategorizer.categorize_multiple`: run the per-ticket operation on
every ticket with a successful synthesis, then append the skipped tickets
untouched. -/
def categorize_multiple (categorize : PipelineTicket → Except Text PipelineTicket)
    (tickets : List PipelineTicket) : List PipelineTicket :=
  let tickets_to_categorize := tickets.filter isCategorizeEligible
  let results := tickets_to_categorize.map (categorize_step categorize)
  let skipped_tickets := tickets.filter fun t => ! isCategorizeEligible t
  results ++ skipped_tickets

/-- The record `DiagnosticsAnalyzer.analyze_multiple` produces for one
non-skipped ticket.  The oracle models `analyze_ticket`: `.ok (some a)` when
the LLM call and parse succeeded, `.ok none` when parsing/validation
returned `None`, `.error` when the call raised. -/
def analyze_step (analyze : PipelineTicket → Except Text (Option DiagnosticsAnalysis))
    (t : PipelineTicket) : PipelineTicket :=
  if t.processing_status = some "failed".toList then
    { t with diagnostics_analysis_status := some "skipped".toList
             diagnostics_analysis_error := some "Synthesis failed".toList }
  else
    match analyze t with
    | .ok (some a) =>
      { t with diagnostics_analysis := some a
               diagnostics_analysis_status := some "success".toList }
    | .ok none =>
      { t with diagnostics_analysis_status := some "failed".toList
               diagnostics_analysis_error := some "Failed to parse LLM response".toList }
    | .error e =>
      { t with diagnostics_analysis_status := some "failed".toList
               diagnostics_analysis_error := some e }

/-- `DiagnosticsAnalyzer.analyze_multiple`: a sequential loop over the
tickets.  Its skip test is `ticket.get('processing_status') == 'failed'` —
the literal `'failed'`, not `'synthesis_failed'`.  The `Nat` component counts
how many times `analyze_ticket` is invoked; each invocation issues exactly
one remote LLM call. -/
def analyze_multiple (analyze : PipelineTicket → Except Text (Option DiagnosticsAnalysis)) :
    List PipelineTicket → List PipelineTicket × Nat
  | [] => ([], 0)
  | t :: rest =>
    let r := analyze_multiple analyze rest
    if t.processing_status = some "failed".toList then
      (analyze_step analyze t :: r.1, r.2)
    else
      (analyze_step analyze t :: r.1, r.2 + 1)

/-! ## Helper lemmas -/

/-- Transforming the `p`-eligible elements and appending the untouched rest
is a permutation of mapping the guarded transform over the whole list. -/
theorem filter_map_append_perm {α : Type} (p : α → Bool) (f : α → α)
    (ts : List α) :
    List.Perm ((ts.filter p).map f ++ ts.filter (fun a => ! p a))
      (ts.map (fun a => if p a then f a else a)) := by
  induction ts with
  | nil => simp
  | cons t ts ih =>
    by_cases h : p t
    · simpa [h] using ih.cons (f t)
    · simp only [List.filter_cons, h, Bool.not_false, List.map_cons, if_neg,
        Bool.false_eq_true, not_false_eq_true, if_false]
      exact List.perm_middle.trans (ih.cons t)

/-- The retry loop under an always-failing operation: starting at `attempt`
with `remaining` further attempts allowed, it invokes the operation
`remaining + 1` times, sleeps `delay * 2 ^ (attempt + k)` before retry `k`,
and returns the last attempt's error. -/
theorem retry_go_always_fails {E A : Type} (errs : Nat → E)
    (op : Nat → Except E A) (hop : ∀ k, op k = .error (errs k)) (delay : ℚ) :
    ∀ remaining attempt,
      retry_go op delay attempt remaining =
        (.error (errs (attempt + remaining)), remaining + 1,
         (List.range remaining).map fun k => delay * 2 ^ (attempt + k)) := by
  intro remaining
  induction remaining with
  | zero => intro attempt; simp [retry_go, hop]
  | succ n ih =>
    intro attempt
    simp only [retry_go, hop, ih (attempt + 1)]
    refine congrArg₂ Prod.mk
      (congrArg (fun m => Except.error (errs m)) (by omega))
      (congrArg₂ Prod.mk rfl ?_)
    simp only [List.range_succ_eq_map, List.map_cons, List.map_map, Nat.add_zero]
    refine congrArg₂ List.cons rfl ?_
    refine List.map_congr_left fun k _ => ?_
    simp only [Function.comp_apply]
    exact congrArg (fun m => delay * 2 ^ m)
      (by omega : attempt + 1 + k = attempt + Nat.succ k)

/-! ## Claim theorems -/

/-- Claim C1: whenever both the ticket fetch and the comment fetch succeed,
`fetch_ticket_complete` still returns a failure record with
`processing_status = "failed"` and `error_type = "AttributeError"`, because
`_parse_custom_fields` unconditionally calls the undefined
`utils.determine_escalation_status`; moreover the success branch is
unreachable for every combination of fetch outcomes. -/
theorem c1_fetch_complete_always_attribute_error :
    ∀ (convert : Text → Text) (ticket_id : Text) (serial_no : Option Nat)
      (td : RawTicket) (cd : List RawComment),
      ((fetch_ticket_complete convert ticket_id serial_no (.ok td) (.ok cd)).processing_status
          = "failed".toList
        ∧ (fetch_ticket_complete convert ticket_id serial_no (.ok td) (.ok cd)).error_type
          = some "AttributeError".toList)
      ∧ ∀ (tr : Except PipelineExc RawTicket) (cr : Except PipelineExc (List RawComment)),
          (fetch_ticket_complete convert ticket_id serial_no tr cr).processing_status
            = "failed".toList := by
  intro convert ticket_id serial_no td cd
  refine ⟨⟨rfl, rfl⟩, fun tr cr => ?_⟩
  cases tr <;> cases cr <;> rfl

/-- Claim C2: each stage runner returns exactly one output record per input
record — the eligible records transformed (success result or per-item
failure copy) plus the ineligible records untouched — so the output is a
permutation of a per-record image of the input and in particular
`count(output) = count(input)`. -/
theorem c2_stage_runners_preserve_count :
    (∀ (synthesize : PipelineTicket → Except Text PipelineTicket)
        (tickets : List PipelineTicket),
        List.Perm (synthesize_multiple synthesize tickets)
          (tickets.map fun t =>
            if isFetchSuccess t then synthesize_step synthesize t else t))
    ∧ (∀ (synthesize : PipelineTicket → Except Text PipelineTicket)
        (tickets : List PipelineTicket),
        (synthesize_multiple synthesize tickets).length = tickets.length)
    ∧ (∀ (categorize : PipelineTicket → Except Text PipelineTicket)
        (tickets : List PipelineTicket),
        List.Perm (categorize_multiple categorize tickets)
          (tickets.map fun t =>
            if isCategorizeEligible t then categorize_step categorize t else t))
    ∧ (∀ (categorize : PipelineTicket → Except Text PipelineTicket)
        (tickets : List PipelineTicket),
        (categorize_multiple categorize tickets).length = tickets.length)
    ∧ (∀ (analyze : PipelineTicket → Except Text (Option DiagnosticsAnalysis))
        (tickets : List PipelineTicket),
        (analyze_multiple analyze tickets).1 = tickets.map (analyze_step analyze))
    ∧ (∀ (analyze : PipelineTicket → Except Text (Option DiagnosticsAnalysis))
        (tickets : List PipelineTicket),
        (analyze_multiple analyze tickets).1.length = tickets.length) := by
  have hsyn : ∀ synthesize tickets,
      List.Perm (synthesize_multiple synthesize tickets)
        (tickets.map fun t =>
          if isFetchSuccess t then synthesize_step synthesize t else t) :=
    fun synthesize tickets =>
      filter_map_append_perm isFetchSuccess (synthesize_step synthesize) tickets
  have hcat : ∀ categorize tickets,
      List.Perm (categorize_multiple categorize tickets)
        (tickets.map fun t =>
          if isCategorizeEligible t then categorize_step categorize t else t) :=
    fun categorize tickets =>
      filter_map_append_perm isCategorizeEligible (categorize_step categorize) tickets
  have hana : ∀ (analyze : PipelineTicket → Except Text (Option DiagnosticsAnalysis))
      (tickets : List PipelineTicket),
      (analyze_multiple analyze tickets).1 = tickets.map (analyze_step analyze) := by
    intro analyze tickets
    induction tickets with
    | nil => rfl
    | cons t ts ih =>
      simp only [analyze_multiple, apply_ite Prod.fst, ite_self, ih, List.map_cons]
  refine ⟨hsyn, fun s ts => ?_, hcat, fun c ts => ?_, hana, fun a ts => ?_⟩
  · exact ((hsyn s ts).length_eq).trans (List.length_map _ _)
  · exact ((hcat c ts).length_eq).trans (List.length_map _ _)
  · rw [hana a ts]; exact List.length_map _ _

/-- A ticket whose synthesis stage failed: `synthesize_multiple` marks such
tickets `processing_status = 'synthesis_failed'`. -/
def c3_synthesis_failed_ticket : PipelineTicket :=
  { ticket_id := some "87239".toList
    processing_status := some "synthesis_failed".toList
    synthesis_error := some "Failed to synthesize".toList }

/-- Claim C3 (evidence of the divergence): `analyze_multiple` invokes the
per-item remote operation `analyze_ticket` exactly once — not zero times —
on a ticket whose `processing_status` is `'synthesis_failed'`, for every
outcome oracle, because its skip test compares against the literal
`'failed'` only. -/
theorem c3_analyze_multiple_calls_remote_on_synthesis_failed :
    ∀ (analyze : PipelineTicket → Except Text (Option DiagnosticsAnalysis)),
      (analyze_multiple analyze [c3_synthesis_failed_ticket]).2 = 1 :=
  fun _ => rfl

/-- Claim C4: the overall assessment follows the 9-entry decision table on
`{yes, no, maybe} × {yes, no, maybe}`, and `analyze_ticket` always stores
exactly the derived value — whatever `overall_assessment` the parsed model
output itself carried is overwritten. -/
theorem c4_overall_assessment_derivation :
    (_derive_overall_assessment "yes".toList "yes".toList = "yes".toList)
    ∧ (_derive_overall_assessment "yes".toList "no".toList = "maybe".toList)
    ∧ (_derive_overall_assessment "yes".toList "maybe".toList = "maybe".toList)
    ∧ (_derive_overall_assessment "maybe".toList "yes".toList = "maybe".toList)
    ∧ (_derive_overall_assessment "maybe".toList "no".toList = "maybe".toList)
    ∧ (_derive_overall_assessment "maybe".toList "maybe".toList = "maybe".toList)
    ∧ (_derive_overall_assessment "no".toList "yes".toList = "no".toList)
    ∧ (_derive_overall_assessment "no".toList "no".toList = "no".toList)
    ∧ (_derive_overall_assessment "no".toList "maybe".toList = "no".toList)
    ∧ ∀ (a : DiagnosticsAnalysis) (custom_field_value timestamp : Text),
        (analyze_ticket_enrich (some a) custom_field_value timestamp).map
            (fun r => r.could_diagnostics_help.overall_assessment)
          = some (some (_derive_overall_assessment
              (a.could_diagnostics_help.triage_assessment.getD "maybe".toList)
              (a.could_diagnostics_help.fix_assessment.getD "no".toList))) :=
  ⟨by decide, by decide, by decide, by decide, by decide, by decide,
   by decide, by decide, by decide, fun _ _ _ => rfl⟩

/-- An endpoint that answers HTTP 404 on every attempt. -/
def always_404 : Nat → Nat × RawTicket := fun _ => (404, {})

/-- Claim C5 (evidence of the divergence): with the config defaults
(`MAX_RETRIES = 1`, `RETRY_DELAY_SECONDS = 2`), a `fetch_ticket` whose
endpoint returns 404 on every attempt issues the HTTP request twice — not
once — and incurs a 2-second back-off sleep before the
`TicketNotFoundError` finally propagates: `retry_on_failure` catches every
exception, including the typed not-found error. -/
theorem c5_fetch_404_consumes_retries :
    fetch_ticket "12345".toList always_404
      = (.error (.ticketNotFound "12345".toList), 2, [2]) := by
  norm_num [fetch_ticket, retry_on_failure, MAX_RETRIES, RETRY_DELAY_SECONDS,
    retry_go, fetch_ticket_body, always_404]

/-- Claim C6: an operation wrapped by `retry_on_failure(max_retries, delay)`
that raises on every invocation is invoked exactly `max_retries + 1` times,
the sleep before retry attempt `k` (counting from 0) is `delay * 2 ^ k`, and
the exception of the final attempt propagates to the caller. -/
theorem c6_retry_exhaustion {E A : Type} (max_retries : Nat) (delay : ℚ)
    (errs : Nat → E) (op : Nat → Except E A)
    (hop : ∀ k, op k = .error (errs k)) :
    retry_on_failure max_retries delay op =
      (.error (errs max_retries), max_retries + 1,
       (List.range max_retries).map fun k => delay * 2 ^ k) := by
  simpa using retry_go_always_fails errs op hop delay max_retries 0

/-- Witness for C6: `max_retries = 1`, `delay = 2` (the config defaults), an
operation failing with `"boom"` every time: two invocations, one 2-second
sleep, and the error propagates. -/
theorem c6_retry_exhaustion_witness :
    retry_on_failure 1 2 (fun _ => (.error "boom" : Except String Unit))
      = (.error "boom", 2, [2]) := by
  have h := c6_retry_exhaustion 1 2 (fun _ => "boom")
    (fun _ => (.error "boom" : Except String Unit)) (fun _ => rfl)
  rw [h]
  norm_num [List.range_succ]

/-- Claim C7: whenever the extracted Primary POD section fails the POD
vocabulary check, `parse_categorization_response` leaves `primary_pod` at
`""` and logs an invalid-POD warning; whenever the extracted Confidence
section fails the confidence vocabulary check, it resets `confidence` to
`"not confident"` and logs an invalid-confidence warning. -/
theorem c7_invalid_enums_reset_to_defaults :
    ∀ t : Text,
      (∀ g : Text, extract_section "**Primary POD:**".toList t = some g →
        validate_pod (pyStrip g) = false →
        (parse_categorization_response t).1.primary_pod = []
          ∧ CatWarning.invalidPod (pyStrip g) ∈ (parse_categorization_response t).2)
      ∧ (∀ g : Text, extract_section "**Confidence:**".toList t = some g →
        validate_confidence (pyStrip g) = false →
        (parse_categorization_response t).1.confidence = "not confident".toList
          ∧ CatWarning.invalidConfidence (pyStrip g) ∈ (parse_categorization_response t).2) := by
  intro t
  constructor
  · intro g hg hv
    simp only [parse_categorization_response]
    rw [hg]
    simp [hv]
  · intro g hg hv
    simp only [parse_categorization_response]
    rw [hg]
    simp [hv]

/-- Witness for C7: a response whose Primary POD (`Frontend`) and Confidence
(`very confident`) are both out of vocabulary parses to `primary_pod = ""`
and `confidence = "not confident"`, with both warnings logged. -/
theorem c7_invalid_enums_reset_to_defaults_witness :
    ((parse_categorization_response
        "**Primary POD:**\nFrontend\n**Confidence:**\nvery confident".toList).1.primary_pod = []
      ∧ CatWarning.invalidPod "Frontend".toList
          ∈ (parse_categorization_response
              "**Primary POD:**\nFrontend\n**Confidence:**\nvery confident".toList).2)
    ∧ ((parse_categorization_response
        "**Primary POD:**\nFrontend\n**Confidence:**\nvery confident".toList).1.confidence
          = "not confident".toList
      ∧ CatWarning.invalidConfidence "very confident".toList
          ∈ (parse_categorization_response
              "**Primary POD:**\nFrontend\n**Confidence:**\nvery confident".toList).2) := by
  have h := c7_invalid_enums_reset_to_defaults
    "**Primary POD:**\nFrontend\n**Confidence:**\nvery confident".toList
  exact ⟨by simpa using h.1 "Frontend".toList (by decide) (by decide),
         by simpa using h.2 "very confident".toList (by decide) (by decide)⟩

/-- Claim C8: whenever an Alternative PODs section is extracted, a literal
case-insensitive `none` yields the empty list, and otherwise the section is
comma-split, trimmed, and filtered to the entries that pass the POD check —
invalid entries are dropped without discarding the valid ones. -/
theorem c8_alternative_pods_rule :
    ∀ (t g : Text), extract_section "**Alternative PODs:**".toList t = some g →
      (parse_categorization_response t).1.alternative_pods =
        if pyLower (pyStrip g) = "none".toList then []
        else ((splitComma (pyStrip g)).map pyStrip).filter validate_pod := by
  intro t g hg
  simp only [parse_categorization_response]
  rw [hg]

/-- Witness for C8: `**Alternative PODs:**\nNone` yields `[]`, and
`**Alternative PODs:**\nGuidance, NotARealPod` yields `["Guidance"]`. -/
theorem c8_alternative_pods_rule_witness :
    (parse_categorization_response
        "**Alternative PODs:**\nNone".toList).1.alternative_pods = []
    ∧ (parse_categorization_response
        "**Alternative PODs:**\nGuidance, NotARealPod".toList).1.alternative_pods
      = ["Guidance".toList] := by
  constructor
  · have h := c8_alternative_pods_rule "**Alternative PODs:**\nNone".toList
      "None".toList (by decide)
    rw [h]; decide
  · have h := c8_alternative_pods_rule "**Alternative PODs:**\nGuidance, NotARealPod".toList
      "Guidance, NotARealPod".toList (by decide)
    rw [h]; decide

/-- A parsed analysis whose `triage_gap_area` is outside any taxonomy. -/
def c9_invalid_triage_analysis : DiagnosticsAnalysis :=
  { could_diagnostics_help := { triage_gap_area := some "ui_configuration".toList } }

/-- A parsed analysis whose `fix_gap_area` is outside any taxonomy. -/
def c9_invalid_fix_analysis : DiagnosticsAnalysis :=
  { could_diagnostics_help := { fix_gap_area := some "bogus_fix_gap".toList } }

/-- Claim C9 (evidence of the divergence): `_normalize_gap_areas` never
remaps anything — as soon as a `triage_gap_area` (resp. `fix_gap_area`) key
is present, the membership test against the undefined
`config.TRIAGE_GAP_AREAS` (resp. `config.FIX_GAP_AREAS`) raises
`AttributeError`, so the analysis fails instead of being normalized. -/
theorem c9_normalize_gap_areas_raises :
    _normalize_gap_areas c9_invalid_triage_analysis
        = .error .triageGapAreasUndefined
    ∧ _normalize_gap_areas c9_invalid_fix_analysis
        = .error .fixGapAreasUndefined :=
  ⟨rfl, rfl⟩

/-- Claim C10: both response parsers are deterministic, side-effect-free
functions of the raw text — two runs on the same text produce identical
structured output (and, for the categorizer, identical warnings). -/
theorem c10_parsers_deterministic :
    ∀ t : Text,
      parse_response t = parse_response t
        ∧ parse_categorization_response t = parse_categorization_response t :=
  fun _ => ⟨rfl, rfl⟩

end TicketSummarizer
